import Mathlib

/-!
Verification of the role/permission authorization gate of the
Alx_DjangoLearnLab repository (sub-projects `advanced_features_and_security`
and `django-models`).

The development shallowly embeds the access-control logic of
`relationship_app/views.py` (the `is_admin` / `is_librarian` / `is_member`
predicates), `bookshelf/views.py` (the `@permission_required`-guarded book
views), `bookshelf/management/commands/setup_groups.py` (group seeding) and
`relationship_app/signals.py` (automatic `UserProfile` creation), together
with the backing data model (`UserProfile` one-to-one with the user, groups
holding permission sets).

Machine-level database state is modelled as plain lists; an ORM
`objects.get` call is modelled as a fallible lookup returning
`Except DjangoError`, where `DjangoError.doesNotExist` corresponds to the
`DoesNotExist` exception (caught inside the role predicates) and
`DjangoError.multipleObjectsReturned` to `MultipleObjectsReturned`
(uncaught, i.e. a propagating error).
-/

/-- An authenticated (or anonymous) principal: Django user object.
`groups` holds the names of the auth groups the user belongs to and
`userPermissions` the full keys of directly granted permissions. -/
structure DUser where
  uid : Nat
  isAuthenticated : Bool
  groups : List String
  userPermissions : List String
deriving DecidableEq, Repr

/-- A `relationship_app.UserProfile` row: one-to-one to a user, storing a
single role string (models.py: `role = CharField(..., default='member')`). -/
structure UserProfile where
  userId : Nat
  role : String
deriving DecidableEq, Repr

/-- The backing store read by the gate: the `UserProfile` table and the
auth-group table (group name paired with the full permission keys the
group grants). -/
structure Database where
  profiles : List UserProfile
  groups : List (String × List String)
deriving DecidableEq, Repr

/-- ORM lookup failures of `Model.objects.get`: `DoesNotExist` when no row
matches, `MultipleObjectsReturned` when several rows match. -/
inductive DjangoError where
  | doesNotExist : DjangoError
  | multipleObjectsReturned : DjangoError
deriving DecidableEq, Repr

/-- Schema invariant enforced by the one-to-one field
`UserProfile.user = OneToOneField(...)`: no two profile rows share a user. -/
@[reducible] def wf (db : Database) : Prop :=
  (db.profiles.map (fun p => p.userId)).Nodup

/-- Embedding of `UserProfile.objects.get(user=user)`: returns the unique
matching row, raises `DoesNotExist` when there is none and
`MultipleObjectsReturned` when there are several. -/
def getUserProfile (db : Database) (u : DUser) : Except DjangoError UserProfile :=
  match db.profiles.filter (fun p => p.userId == u.uid) with
  | [] => Except.error DjangoError.doesNotExist
  | [p] => Except.ok p
  | _ :: _ :: _ => Except.error DjangoError.multipleObjectsReturned

/-- The profile row of a user id, as a plain association lookup; used to
state theorems about the lookup-based predicates. -/
def profileOf (db : Database) (uid : Nat) : Option UserProfile :=
  db.profiles.find? (fun p => p.userId == uid)

/-- Embedding of `is_admin(user)` (relationship_app/views.py): false for an
unauthenticated user, otherwise fetch the profile, compare the stored role
string to "admin", and turn a caught `DoesNotExist` into false. -/
def is_admin (db : Database) (u : DUser) : Except DjangoError Bool :=
  if !u.isAuthenticated then Except.ok false
  else
    match getUserProfile db u with
    | Except.ok p => Except.ok (p.role == "admin")
    | Except.error DjangoError.doesNotExist => Except.ok false
    | Except.error e => Except.error e

/-- Embedding of `is_librarian(user)` (relationship_app/views.py). -/
def is_librarian (db : Database) (u : DUser) : Except DjangoError Bool :=
  if !u.isAuthenticated then Except.ok false
  else
    match getUserProfile db u with
    | Except.ok p => Except.ok (p.role == "librarian")
    | Except.error DjangoError.doesNotExist => Except.ok false
    | Except.error e => Except.error e

/-- Embedding of `is_member(user)` (relationship_app/views.py). -/
def is_member (db : Database) (u : DUser) : Except DjangoError Bool :=
  if !u.isAuthenticated then Except.ok false
  else
    match getUserProfile db u with
    | Except.ok p => Except.ok (p.role == "member")
    | Except.error DjangoError.doesNotExist => Except.ok false
    | Except.error e => Except.error e

/-- The spec operation `has_role(principal, role_name)`, of which the three
source predicates are the instances at "admin", "librarian" and "member":
same authentication guard, same defensive lookup, same exact string
comparison. -/
def has_role (db : Database) (u : DUser) (role_name : String) : Except DjangoError Bool :=
  if !u.isAuthenticated then Except.ok false
  else
    match getUserProfile db u with
    | Except.ok p => Except.ok (p.role == role_name)
    | Except.error DjangoError.doesNotExist => Except.ok false
    | Except.error e => Except.error e

/-- Permission set granted by a named group (empty for an unknown group). -/
def group_permissions (db : Database) (g : String) : List String :=
  match db.groups.find? (fun e => e.1 == g) with
  | some e => e.2
  | none => []

/-- Modelled from the spec: the accumulated permission set of a principal —
direct grants plus the grants of every group the principal belongs to,
empty for an unauthenticated principal. The accumulation itself is owned by
the excluded framework layer (`user.get_all_permissions`); the spec defines
it as the union of direct and role-derived grants. -/
def accumulated_permissions (db : Database) (u : DUser) : List String :=
  if u.isAuthenticated then
    u.userPermissions ++ (u.groups.map (fun g => group_permissions db g)).flatten
  else []

/-- Modelled from the spec: `has_permission(principal, permission_key)` —
the framework check `user.has_perm(key)` used by `@permission_required` and
`user_dashboard` (bookshelf/views.py): false for an unauthenticated
principal, otherwise true iff the key is directly granted or granted by
some group of the principal. -/
def has_permission (db : Database) (u : DUser) (k : String) : Bool :=
  if !u.isAuthenticated then false
  else u.userPermissions.contains k
    || u.groups.any (fun g => (group_permissions db g).contains k)

/-- A capability requirement: either a role name (checked by
`user_passes_test(is_*)`) or a permission key (checked by
`@permission_required`). -/
inductive Requirement where
  | role : String → Requirement
  | perm : String → Requirement
deriving DecidableEq, Repr

/-- Outcome of the gate. -/
inductive Decision where
  | Allow : Decision
  | Deny : Decision
deriving DecidableEq, Repr

/-- The spec operation `authorize(principal, requirement)`: evaluate the
matching predicate and map its boolean to Allow/Deny; a propagating lookup
failure (never a business-logic denial) surfaces as an error. -/
def authorize (db : Database) (u : DUser) : Requirement → Except DjangoError Decision
  | Requirement.role r =>
    match has_role db u r with
    | Except.ok true => Except.ok Decision.Allow
    | Except.ok false => Except.ok Decision.Deny
    | Except.error e => Except.error e
  | Requirement.perm k =>
    Except.ok (if has_permission db u k then Decision.Allow else Decision.Deny)

/- Shared lemmas about the lookup. -/

theorem filter_eq_of_nodup_find (l : List UserProfile) (i : Nat)
    (hnd : (l.map (fun p => p.userId)).Nodup) :
    l.filter (fun p => p.userId == i) = (l.find? (fun p => p.userId == i)).toList := by
  induction l with
  | nil => rfl
  | cons h t ih =>
    simp only [List.map_cons, List.nodup_cons] at hnd
    by_cases hh : h.userId = i
    · have ht : t.filter (fun p => p.userId == i) = [] := by
        rw [List.filter_eq_nil_iff]
        intro a ha
        simp only [beq_iff_eq]
        intro hai
        exact hnd.1 (by
          rw [List.mem_map]
          exact ⟨a, ha, by rw [hai, hh]⟩)
      simp [List.filter_cons, List.find?_cons, hh, ht]
    · have hb : (h.userId == i) = false := by simp [hh]
      simp only [List.filter_cons, List.find?_cons, hb]
      simp only [Bool.false_eq_true, if_false]
      exact ih hnd.2

theorem getUserProfile_eq_profileOf (db : Database) (u : DUser) (hwf : wf db) :
    getUserProfile db u =
      match profileOf db u.uid with
      | some p => Except.ok p
      | none => Except.error DjangoError.doesNotExist := by
  unfold getUserProfile profileOf
  rw [filter_eq_of_nodup_find db.profiles u.uid hwf]
  cases db.profiles.find? (fun p => p.userId == u.uid) <;> rfl

theorem getUserProfile_none (db : Database) (u : DUser)
    (h : profileOf db u.uid = none) :
    getUserProfile db u = Except.error DjangoError.doesNotExist := by
  unfold profileOf at h
  rw [List.find?_eq_none] at h
  unfold getUserProfile
  have : db.profiles.filter (fun p => p.userId == u.uid) = [] := by
    rw [List.filter_eq_nil_iff]
    exact fun a ha => by simpa using h a ha
  rw [this]

theorem is_admin_eq_has_role (db : Database) (u : DUser) :
    is_admin db u = has_role db u "admin" := rfl

theorem is_librarian_eq_has_role (db : Database) (u : DUser) :
    is_librarian db u = has_role db u "librarian" := rfl

theorem is_member_eq_has_role (db : Database) (u : DUser) :
    is_member db u = has_role db u "member" := rfl

theorem has_role_unauthenticated (db : Database) (u : DUser) (r : String)
    (h : u.isAuthenticated = false) : has_role db u r = Except.ok false := by
  unfold has_role
  rw [h]
  rfl

theorem has_role_profile (db : Database) (u : DUser) (r : String) (p : UserProfile)
    (hwf : wf db) (hp : profileOf db u.uid = some p) (ha : u.isAuthenticated = true) :
    has_role db u r = Except.ok (p.role == r) := by
  unfold has_role
  rw [ha, getUserProfile_eq_profileOf db u hwf, hp]
  rfl

theorem has_role_no_profile (db : Database) (u : DUser) (r : String)
    (hp : profileOf db u.uid = none) :
    has_role db u r = Except.ok false := by
  unfold has_role
  cases ha : u.isAuthenticated with
  | false => rfl
  | true => simp [getUserProfile_none db u hp]

/- State-threaded execution model: each gate call as a transition on the
backing store, threading the store through every ORM operation the source
performs (all of which are reads). -/

/-- The `objects.get` read as a store transition: a query leaves the store
it reads unchanged. -/
def getUserProfile_call (db : Database) (u : DUser) :
    (Except DjangoError UserProfile) × Database :=
  (getUserProfile db u, db)

/-- One `has_role` call as a store transition (the body of the
`is_admin`-shaped predicates with the store threaded explicitly). -/
def has_role_call (db : Database) (u : DUser) (r : String) :
    (Except DjangoError Bool) × Database :=
  if !u.isAuthenticated then (Except.ok false, db)
  else
    match getUserProfile_call db u with
    | (Except.ok p, db1) => (Except.ok (p.role == r), db1)
    | (Except.error DjangoError.doesNotExist, db1) => (Except.ok false, db1)
    | (Except.error e, db1) => (Except.error e, db1)

/-- One `has_permission` call as a store transition: the group-table reads
leave the store unchanged. -/
def has_permission_call (db : Database) (u : DUser) (k : String) :
    Bool × Database :=
  if !u.isAuthenticated then (false, db)
  else
    (u.userPermissions.contains k
      || u.groups.any (fun g => (group_permissions db g).contains k), db)

/- The guarded book views (relationship_app/views.py and
bookshelf/views.py): mutation model over the Book table. -/

/-- A `Book` row; only the primary key and the payload matter to the
guarded mutations. -/
structure BookRec where
  pk : Nat
  title : String
deriving DecidableEq, Repr

/-- Outcome of one view call at the HTTP boundary: a rendered template, a
redirect, the forbidden response produced from a denied permission check
(`PermissionDenied` with `raise_exception=True`), or an unhandled error. -/
inductive ViewResponse where
  | rendered : String → ViewResponse
  | redirected : String → ViewResponse
  | forbidden : ViewResponse
  | serverError : ViewResponse
deriving DecidableEq, Repr

/-- Embedding of the `@permission_required(key, raise_exception=True)`
decorator: evaluate the permission check first; only when it passes run
the wrapped view body, otherwise produce the forbidden response and leave
the store untouched. -/
def permission_required (key : String)
    (view : List BookRec → ViewResponse × List BookRec)
    (db : Database) (u : DUser) (books : List BookRec) :
    ViewResponse × List BookRec :=
  if has_permission db u key then view books
  else (ViewResponse.forbidden, books)

/-- Body of `add_book` (relationship_app/views.py): on a valid POST save
the new row and redirect, otherwise re-render the form. The validated form
payload is `some b` when `form.is_valid()`. -/
def add_book_body (method : String) (form : Option BookRec)
    (books : List BookRec) : ViewResponse × List BookRec :=
  if method == "POST" then
    match form with
    | some b => (ViewResponse.redirected "list_books", books ++ [b])
    | none => (ViewResponse.rendered "add_book", books)
  else (ViewResponse.rendered "add_book", books)

/-- Body of `change_book` (relationship_app/views.py): `Book.objects.get`
on a missing pk is an uncaught `DoesNotExist` (server error); on a valid
POST the row is replaced, else the form is re-rendered. -/
def change_book_body (method : String) (pk : Nat) (form : Option String)
    (books : List BookRec) : ViewResponse × List BookRec :=
  match books.find? (fun b => b.pk == pk) with
  | none => (ViewResponse.serverError, books)
  | some _ =>
    if method == "POST" then
      match form with
      | some t =>
        (ViewResponse.redirected "list_books",
         books.map (fun b => if b.pk == pk then { b with title := t } else b))
      | none => (ViewResponse.rendered "change_book", books)
    else (ViewResponse.rendered "change_book", books)

/-- Body of `delete_book` (relationship_app/views.py): fetch (uncaught
`DoesNotExist` on a missing pk), delete, redirect. -/
def delete_book_body (pk : Nat) (books : List BookRec) :
    ViewResponse × List BookRec :=
  match books.find? (fun b => b.pk == pk) with
  | none => (ViewResponse.serverError, books)
  | some _ =>
    (ViewResponse.redirected "list_books",
     books.filter (fun b => !(b.pk == pk)))

/-- Body of bookshelf `delete_book` (bookshelf/views.py): `pk = 0` fails
the `if not pk` validation and redirects; a missing row raises `Http404`,
caught by the blanket `except Exception` which redirects; a POST deletes
and redirects; a GET renders the confirmation page. -/
def bookshelf_delete_book_body (method : String) (pk : Nat)
    (books : List BookRec) : ViewResponse × List BookRec :=
  if pk == 0 then (ViewResponse.redirected "book_list", books)
  else
    match books.find? (fun b => b.pk == pk) with
    | none => (ViewResponse.redirected "book_list", books)
    | some _ =>
      if method == "POST" then
        (ViewResponse.redirected "book_list",
         books.filter (fun b => !(b.pk == pk)))
      else (ViewResponse.rendered "delete_book", books)

/-- The guarded `add_book` view: decorator around the body. -/
def add_book (db : Database) (u : DUser) (method : String)
    (form : Option BookRec) (books : List BookRec) :
    ViewResponse × List BookRec :=
  permission_required "relationship_app.can_create"
    (add_book_body method form) db u books

/-- The guarded `change_book` view. -/
def change_book (db : Database) (u : DUser) (method : String) (pk : Nat)
    (form : Option String) (books : List BookRec) :
    ViewResponse × List BookRec :=
  permission_required "relationship_app.can_edit"
    (change_book_body method pk form) db u books

/-- The guarded `delete_book` view (relationship_app). -/
def delete_book (db : Database) (u : DUser) (pk : Nat)
    (books : List BookRec) : ViewResponse × List BookRec :=
  permission_required "relationship_app.can_delete"
    (delete_book_body pk) db u books

/-- The guarded bookshelf `delete_book` view. -/
def bookshelf_delete_book (db : Database) (u : DUser) (method : String)
    (pk : Nat) (books : List BookRec) : ViewResponse × List BookRec :=
  permission_required "bookshelf.can_delete"
    (bookshelf_delete_book_body method pk) db u books

/- Group seeding (bookshelf/management/commands/setup_groups.py). -/

/-- A row of the framework `Permission` table: app label (content type) and
codename; its full key, as checked by `has_perm`, is
`app_label ++ "." ++ codename`. -/
structure PermissionRow where
  appLabel : String
  codename : String
deriving DecidableEq, Repr

/-- Full permission key of a `Permission` row. -/
def fullKey (p : PermissionRow) : String := p.appLabel ++ "." ++ p.codename

/-- The text after the last dot of a dotted key: embedding of
`perm_codename.split('.')[-1]` in setup_groups.py. -/
def codename_part (s : String) : String :=
  String.mk ((s.data.reverse.takeWhile (fun c => !(c == '.'))).reverse)

/-- Embedding of `Permission.objects.get(codename=cn)` against the
`Permission` table. -/
def getPermission (registry : List PermissionRow) (cn : String) :
    Except DjangoError PermissionRow :=
  match registry.filter (fun p => p.codename == cn) with
  | [] => Except.error DjangoError.doesNotExist
  | [p] => Except.ok p
  | _ :: _ :: _ => Except.error DjangoError.multipleObjectsReturned

/-- The permission-adding loop of `Command.handle`: resolve each listed key
by codename, skip a key whose permission row does not exist (the
`except Permission.DoesNotExist` branch), and propagate any other lookup
failure. Accumulates the full keys granted to the group. -/
def add_group_permissions (registry : List PermissionRow) (acc : List String) :
    List String → Except DjangoError (List String)
  | [] => Except.ok acc
  | k :: ks =>
    match getPermission registry (codename_part k) with
    | Except.ok p => add_group_permissions registry (acc ++ [fullKey p]) ks
    | Except.error DjangoError.doesNotExist => add_group_permissions registry acc ks
    | Except.error e => Except.error e

/-- The `groups_data` literal of bookshelf setup_groups.py: intended
permission sets of the three groups. -/
def groups_data : List (String × List String) :=
  [("Viewers", ["bookshelf.can_view"]),
   ("Editors", ["bookshelf.can_view", "bookshelf.can_create", "bookshelf.can_edit"]),
   ("Admins", ["bookshelf.can_view", "bookshelf.can_create",
               "bookshelf.can_edit", "bookshelf.can_delete"])]

/-- Embedding of `Command.handle` of setup_groups.py: for each group of
`groups_data`, clear its permissions and add the resolvable ones; the
result is the seeded group table. -/
def setup_groups (registry : List PermissionRow) :
    Except DjangoError (List (String × List String)) :=
  groups_data.foldr
    (fun e acc => do
      let gs ← acc
      let ps ← add_group_permissions registry [] e.2
      Except.ok ((e.1, ps) :: gs))
    (Except.ok [])

/-- The four custom bookshelf permission rows that setup_groups.py,
create_test_users.py and security_tests.py presuppose
(`Permission.objects.get(codename='can_view')`, etc.): the scenario's
`Permission` table. -/
def bookshelf_permission_rows : List PermissionRow :=
  [{ appLabel := "bookshelf", codename := "can_view" },
   { appLabel := "bookshelf", codename := "can_create" },
   { appLabel := "bookshelf", codename := "can_edit" },
   { appLabel := "bookshelf", codename := "can_delete" }]

/-- The group table produced by running the seeding command on that
`Permission` table. -/
def seeded_groups : List (String × List String) :=
  match setup_groups bookshelf_permission_rows with
  | Except.ok gs => gs
  | Except.error _ => []

/-- The scenario store after seeding. -/
def scenario_db : Database := { profiles := [], groups := seeded_groups }

/-- The principal `editor_user` as provisioned by create_test_users.py:
authenticated, assigned to the group "Editors", no direct grants. -/
def editor_user : DUser :=
  { uid := 2, isAuthenticated := true, groups := ["Editors"], userPermissions := [] }

/- Automatic profile creation (django-models relationship_app/signals.py). -/

/-- Embedding of the `create_user_profile` post_save receiver: on creation
of a user record, insert a `UserProfile` row for it; the row's role is the
model field default "member" (relationship_app/models.py). -/
def create_user_profile (db : Database) (u : DUser) (created : Bool) : Database :=
  if created then
    { db with profiles := db.profiles ++ [{ userId := u.uid, role := "member" }] }
  else db

/-- Embedding of the `save_user_profile` post_save receiver: if the user
already has a profile, save it (no field change); otherwise
`get_or_create` inserts one with the defaults. -/
def save_user_profile (db : Database) (u : DUser) : Database :=
  if db.profiles.any (fun p => p.userId == u.uid) then db
  else
    { db with profiles := db.profiles ++ [{ userId := u.uid, role := "member" }] }

/-- The standard save path for a new user record: `post_save` fires both
receivers in registration order with `created=True`. -/
def create_user_record (db : Database) (u : DUser) : Database :=
  save_user_profile (create_user_profile db u true) u

instance {e a : Type} [DecidableEq e] [DecidableEq a] : DecidableEq (Except e a) :=
  fun x y =>
    match x, y with
    | Except.ok u, Except.ok v =>
      if h : u = v then isTrue (by rw [h]) else isFalse (by intro hc; cases hc; exact h rfl)
    | Except.error u, Except.error v =>
      if h : u = v then isTrue (by rw [h]) else isFalse (by intro hc; cases hc; exact h rfl)
    | Except.ok _, Except.error _ => isFalse (by intro hc; cases hc)
    | Except.error _, Except.ok _ => isFalse (by intro hc; cases hc)

/- Concrete sample states used by the witnesses. -/

/-- A store holding exactly one profile row, role "admin", for user 1. -/
def wdb_admin : Database :=
  { profiles := [{ userId := 1, role := "admin" }], groups := [] }

/-- An empty store. -/
def wdb_empty : Database := { profiles := [], groups := [] }

/-- An authenticated user with id 1 and no grants. -/
def wuser_auth : DUser :=
  { uid := 1, isAuthenticated := true, groups := [], userPermissions := [] }

/-- An unauthenticated (anonymous) principal. -/
def wuser_anon : DUser :=
  { uid := 7, isAuthenticated := false, groups := [], userPermissions := [] }

/- Further shared lemmas. -/

theorem has_role_call_spec (db : Database) (u : DUser) (r : String) :
    has_role_call db u r = (has_role db u r, db) := by
  unfold has_role_call has_role getUserProfile_call
  cases ha : u.isAuthenticated with
  | false => simp
  | true =>
    cases hg : getUserProfile db u with
    | ok p => simp [hg]
    | error e => cases e <;> simp [hg]

theorem has_permission_call_spec (db : Database) (u : DUser) (k : String) :
    has_permission_call db u k = (has_permission db u k, db) := by
  unfold has_permission_call has_permission
  cases ha : u.isAuthenticated <;> simp

theorem has_role_true_profile (db : Database) (u : DUser) (r : String)
    (h : has_role db u r = Except.ok true) :
    ∃ p, getUserProfile db u = Except.ok p ∧ p.role = r := by
  unfold has_role at h
  cases ha : u.isAuthenticated <;> rw [ha] at h
  · simp at h
  · cases hg : getUserProfile db u with
    | ok p =>
      rw [hg] at h
      simp at h
      exact ⟨p, rfl, h⟩
    | error e => cases e <;> rw [hg] at h <;> simp at h

/-- Claim C1: for every principal and role name, `has_role` (realized by
`is_admin` / `is_librarian` / `is_member`) is false when the principal is
unauthenticated, false when no role-profile record exists, and otherwise
true iff the role string stored in the profile equals the role name by
exact, case-sensitive string comparison. -/
theorem C1_has_role_characterization (db : Database) (u : DUser) (r : String)
    (hwf : wf db) :
    is_admin db u = has_role db u "admin" ∧
    is_librarian db u = has_role db u "librarian" ∧
    is_member db u = has_role db u "member" ∧
    has_role db u r =
      Except.ok (u.isAuthenticated &&
        (profileOf db u.uid).elim false (fun p => p.role == r)) := by
  refine ⟨rfl, rfl, rfl, ?_⟩
  cases ha : u.isAuthenticated with
  | false => simp [has_role_unauthenticated db u r ha]
  | true =>
    cases hp : profileOf db u.uid with
    | none => simp [has_role_no_profile db u r hp]
    | some p => simp [has_role_profile db u r p hwf hp ha]

/-- Witness for C1 on a concrete one-row store. -/
theorem C1_has_role_characterization_witness :
    wf wdb_admin ∧
    (is_admin wdb_admin wuser_auth = has_role wdb_admin wuser_auth "admin" ∧
     is_librarian wdb_admin wuser_auth = has_role wdb_admin wuser_auth "librarian" ∧
     is_member wdb_admin wuser_auth = has_role wdb_admin wuser_auth "member" ∧
     has_role wdb_admin wuser_auth "admin" =
       Except.ok (wuser_auth.isAuthenticated &&
         (profileOf wdb_admin wuser_auth.uid).elim false (fun p => p.role == "admin"))) :=
  ⟨by decide, C1_has_role_characterization wdb_admin wuser_auth "admin" (by decide)⟩

/-- Claim C2: in the seeded scenario, `editor_user` from group "Editors"
(whose permission set is can_view / can_create / can_edit) is allowed
can_edit and denied can_delete; and in general `has_permission` holds iff
the key is in the permission set accumulated from direct grants and
group-derived grants. -/
theorem C2_editor_scenario_and_membership :
    setup_groups bookshelf_permission_rows = Except.ok seeded_groups ∧
    group_permissions scenario_db "Editors" =
      ["bookshelf.can_view", "bookshelf.can_create", "bookshelf.can_edit"] ∧
    authorize scenario_db editor_user (Requirement.perm "bookshelf.can_edit") =
      Except.ok Decision.Allow ∧
    authorize scenario_db editor_user (Requirement.perm "bookshelf.can_delete") =
      Except.ok Decision.Deny ∧
    ∀ (db : Database) (u : DUser) (k : String),
      has_permission db u k = true ↔ k ∈ accumulated_permissions db u := by
  refine ⟨by decide, by decide, by decide, by decide, ?_⟩
  intro db u k
  unfold has_permission accumulated_permissions
  cases ha : u.isAuthenticated with
  | false => simp
  | true =>
    simp [List.mem_append, List.mem_flatten, List.mem_map, List.any_eq_true]

/-- Claim C3: every authorize call with an unauthenticated principal
returns Deny as a value, for any requirement, and never raises. -/
theorem C3_unauthenticated_always_deny (db : Database) (u : DUser)
    (req : Requirement) (h : u.isAuthenticated = false) :
    authorize db u req = Except.ok Decision.Deny := by
  cases req with
  | role r =>
    simp [authorize, has_role_unauthenticated db u r h]
  | perm k =>
    simp [authorize, has_permission, h]

/-- Witness for C3 with an anonymous principal and a role requirement. -/
theorem C3_unauthenticated_always_deny_witness :
    wuser_anon.isAuthenticated = false ∧
    authorize wdb_admin wuser_anon (Requirement.role "admin") = Except.ok Decision.Deny :=
  ⟨by decide, C3_unauthenticated_always_deny wdb_admin wuser_anon
    (Requirement.role "admin") (by decide)⟩

/-- Claim C4: for an authenticated principal with no role-profile record,
`has_role` (and each of its three realizations) returns false and no
error escapes: the missing-record failure is caught inside the predicate. -/
theorem C4_missing_profile_is_false (db : Database) (u : DUser) (r : String)
    (_ha : u.isAuthenticated = true) (hp : profileOf db u.uid = none) :
    has_role db u r = Except.ok false ∧
    is_admin db u = Except.ok false ∧
    is_librarian db u = Except.ok false ∧
    is_member db u = Except.ok false := by
  refine ⟨has_role_no_profile db u r hp, ?_, ?_, ?_⟩
  · rw [is_admin_eq_has_role]
    exact has_role_no_profile db u "admin" hp
  · rw [is_librarian_eq_has_role]
    exact has_role_no_profile db u "librarian" hp
  · rw [is_member_eq_has_role]
    exact has_role_no_profile db u "member" hp

/-- Witness for C4 on the empty store. -/
theorem C4_missing_profile_is_false_witness :
    wuser_auth.isAuthenticated = true ∧
    profileOf wdb_empty wuser_auth.uid = none ∧
    (has_role wdb_empty wuser_auth "admin" = Except.ok false ∧
     is_admin wdb_empty wuser_auth = Except.ok false ∧
     is_librarian wdb_empty wuser_auth = Except.ok false ∧
     is_member wdb_empty wuser_auth = Except.ok false) :=
  ⟨by decide, by decide,
   C4_missing_profile_is_false wdb_empty wuser_auth "admin" (by decide) (by decide)⟩

/-- Claim C5: a principal whose stored role is "admin" satisfies the admin
check and fails the librarian check: role checks are flat equality tests
with no hierarchy. -/
theorem C5_no_role_hierarchy (db : Database) (u : DUser) (p : UserProfile)
    (hwf : wf db) (ha : u.isAuthenticated = true)
    (hp : profileOf db u.uid = some p) (hr : p.role = "admin") :
    is_admin db u = Except.ok true ∧ is_librarian db u = Except.ok false := by
  constructor
  · rw [is_admin_eq_has_role, has_role_profile db u "admin" p hwf hp ha, hr]
    rfl
  · rw [is_librarian_eq_has_role, has_role_profile db u "librarian" p hwf hp ha, hr]
    rfl

/-- Witness for C5 on the concrete admin store. -/
theorem C5_no_role_hierarchy_witness :
    wf wdb_admin ∧
    wuser_auth.isAuthenticated = true ∧
    profileOf wdb_admin wuser_auth.uid = some { userId := 1, role := "admin" } ∧
    (is_admin wdb_admin wuser_auth = Except.ok true ∧
     is_librarian wdb_admin wuser_auth = Except.ok false) :=
  ⟨by decide, by decide, by decide,
   C5_no_role_hierarchy wdb_admin wuser_auth { userId := 1, role := "admin" }
     (by decide) (by decide) (by decide) rfl⟩

/-- Claim C6: over a store satisfying the one-to-one schema invariant, a
business-logic denial is communicated by the gate as the Deny variant of a
normal return value: every authorize call evaluates to Allow or Deny and
never to a propagating error. -/
theorem C6_denial_is_a_value (db : Database) (u : DUser) (req : Requirement)
    (hwf : wf db) :
    authorize db u req = Except.ok Decision.Allow ∨
    authorize db u req = Except.ok Decision.Deny := by
  cases req with
  | perm k =>
    cases hk : has_permission db u k with
    | true => exact Or.inl (by simp [authorize, hk])
    | false => exact Or.inr (by simp [authorize, hk])
  | role r =>
    cases ha : u.isAuthenticated with
    | false => exact Or.inr (by simp [authorize, has_role_unauthenticated db u r ha])
    | true =>
      cases hp : profileOf db u.uid with
      | none => exact Or.inr (by simp [authorize, has_role_no_profile db u r hp])
      | some p =>
        have h := has_role_profile db u r p hwf hp ha
        cases hb : (p.role == r) with
        | true =>
          rw [hb] at h
          exact Or.inl (by simp [authorize, h])
        | false =>
          rw [hb] at h
          exact Or.inr (by simp [authorize, h])

/-- Witness for C6 on a concrete store and requirement. -/
theorem C6_denial_is_a_value_witness :
    wf wdb_admin ∧
    (authorize wdb_admin wuser_auth (Requirement.role "librarian") =
       Except.ok Decision.Allow ∨
     authorize wdb_admin wuser_auth (Requirement.role "librarian") =
       Except.ok Decision.Deny) :=
  ⟨by decide,
   C6_denial_is_a_value wdb_admin wuser_auth (Requirement.role "librarian") (by decide)⟩

/-- Claim C7: each guarded mutating book view checks its own permission
strictly before any write: whenever a principal is denied the permission of
one of the operations, that operation leaves the book table unchanged and
produces the forbidden outcome, with no partial side effects — four
independent implications, one per guarded operation. -/
theorem C7_denied_views_do_not_mutate (db : Database) (u : DUser)
    (method : String) (pk : Nat) (formBook : Option BookRec)
    (formTitle : Option String) (books : List BookRec) :
    (has_permission db u "relationship_app.can_create" = false →
      add_book db u method formBook books = (ViewResponse.forbidden, books)) ∧
    (has_permission db u "relationship_app.can_edit" = false →
      change_book db u method pk formTitle books = (ViewResponse.forbidden, books)) ∧
    (has_permission db u "relationship_app.can_delete" = false →
      delete_book db u pk books = (ViewResponse.forbidden, books)) ∧
    (has_permission db u "bookshelf.can_delete" = false →
      bookshelf_delete_book db u method pk books = (ViewResponse.forbidden, books)) := by
  refine ⟨?_, ?_, ?_, ?_⟩
  · intro h
    unfold add_book permission_required
    rw [h]
    simp
  · intro h
    unfold change_book permission_required
    rw [h]
    simp
  · intro h
    unfold delete_book permission_required
    rw [h]
    simp
  · intro h
    unfold bookshelf_delete_book permission_required
    rw [h]
    simp

/-- Witness for C7: an anonymous principal against a non-empty book table. -/
theorem C7_denied_views_do_not_mutate_witness :
    has_permission wdb_empty wuser_anon "relationship_app.can_create" = false ∧
    has_permission wdb_empty wuser_anon "relationship_app.can_edit" = false ∧
    has_permission wdb_empty wuser_anon "relationship_app.can_delete" = false ∧
    has_permission wdb_empty wuser_anon "bookshelf.can_delete" = false ∧
    (add_book wdb_empty wuser_anon "POST" (some { pk := 9, title := "x" })
        [{ pk := 1, title := "b" }] =
      (ViewResponse.forbidden, [{ pk := 1, title := "b" }]) ∧
     change_book wdb_empty wuser_anon "POST" 1 (some "y")
        [{ pk := 1, title := "b" }] =
      (ViewResponse.forbidden, [{ pk := 1, title := "b" }]) ∧
     delete_book wdb_empty wuser_anon 1 [{ pk := 1, title := "b" }] =
      (ViewResponse.forbidden, [{ pk := 1, title := "b" }]) ∧
     bookshelf_delete_book wdb_empty wuser_anon "POST" 1 [{ pk := 1, title := "b" }] =
      (ViewResponse.forbidden, [{ pk := 1, title := "b" }])) :=
  ⟨by decide, by decide, by decide, by decide,
   (C7_denied_views_do_not_mutate wdb_empty wuser_anon "POST" 1
     (some { pk := 9, title := "x" }) (some "y") [{ pk := 1, title := "b" }]).1
     (by decide),
   (C7_denied_views_do_not_mutate wdb_empty wuser_anon "POST" 1
     (some { pk := 9, title := "x" }) (some "y") [{ pk := 1, title := "b" }]).2.1
     (by decide),
   (C7_denied_views_do_not_mutate wdb_empty wuser_anon "POST" 1
     (some { pk := 9, title := "x" }) (some "y") [{ pk := 1, title := "b" }]).2.2.1
     (by decide),
   (C7_denied_views_do_not_mutate wdb_empty wuser_anon "POST" 1
     (some { pk := 9, title := "x" }) (some "y") [{ pk := 1, title := "b" }]).2.2.2
     (by decide)⟩

/-- Claim C8: a gate call is a pure read: it leaves the backing store
unchanged, and a second call on the store the first call returns yields
the identical result; the threaded calls agree with the pure predicates. -/
theorem C8_calls_idempotent_and_readonly (db : Database) (u : DUser)
    (r : String) (k : String) :
    (has_role_call db u r).2 = db ∧
    (has_role_call ((has_role_call db u r).2) u r).1 = (has_role_call db u r).1 ∧
    (has_role_call db u r).1 = has_role db u r ∧
    (has_permission_call db u k).2 = db ∧
    (has_permission_call ((has_permission_call db u k).2) u k).1 =
      (has_permission_call db u k).1 ∧
    (has_permission_call db u k).1 = has_permission db u k := by
  simp [has_role_call_spec, has_permission_call_spec]

/-- Claim C9: the one-to-one profile relation stores at most one role row
per principal, and consequently at most one of the three role predicates
can return true for a given user. -/
theorem C9_at_most_one_role (db : Database) (u : DUser) (hwf : wf db) :
    (db.profiles.filter (fun p => p.userId == u.uid)).length ≤ 1 ∧
    ¬(is_admin db u = Except.ok true ∧ is_librarian db u = Except.ok true) ∧
    ¬(is_admin db u = Except.ok true ∧ is_member db u = Except.ok true) ∧
    ¬(is_librarian db u = Except.ok true ∧ is_member db u = Except.ok true) := by
  refine ⟨?_, ?_, ?_, ?_⟩
  · rw [filter_eq_of_nodup_find db.profiles u.uid hwf]
    cases db.profiles.find? (fun p => p.userId == u.uid) <;> simp
  · rintro ⟨h1, h2⟩
    rw [is_admin_eq_has_role] at h1
    rw [is_librarian_eq_has_role] at h2
    obtain ⟨p, hp, hr⟩ := has_role_true_profile db u "admin" h1
    obtain ⟨q, hq, hs⟩ := has_role_true_profile db u "librarian" h2
    rw [hp] at hq
    cases hq
    rw [hr] at hs
    exact absurd hs (by decide)
  · rintro ⟨h1, h2⟩
    rw [is_admin_eq_has_role] at h1
    rw [is_member_eq_has_role] at h2
    obtain ⟨p, hp, hr⟩ := has_role_true_profile db u "admin" h1
    obtain ⟨q, hq, hs⟩ := has_role_true_profile db u "member" h2
    rw [hp] at hq
    cases hq
    rw [hr] at hs
    exact absurd hs (by decide)
  · rintro ⟨h1, h2⟩
    rw [is_librarian_eq_has_role] at h1
    rw [is_member_eq_has_role] at h2
    obtain ⟨p, hp, hr⟩ := has_role_true_profile db u "librarian" h1
    obtain ⟨q, hq, hs⟩ := has_role_true_profile db u "member" h2
    rw [hp] at hq
    cases hq
    rw [hr] at hs
    exact absurd hs (by decide)

/-- Witness for C9 on the concrete admin store. -/
theorem C9_at_most_one_role_witness :
    wf wdb_admin ∧
    ((wdb_admin.profiles.filter (fun p => p.userId == wuser_auth.uid)).length ≤ 1 ∧
     ¬(is_admin wdb_admin wuser_auth = Except.ok true ∧
       is_librarian wdb_admin wuser_auth = Except.ok true) ∧
     ¬(is_admin wdb_admin wuser_auth = Except.ok true ∧
       is_member wdb_admin wuser_auth = Except.ok true) ∧
     ¬(is_librarian wdb_admin wuser_auth = Except.ok true ∧
       is_member wdb_admin wuser_auth = Except.ok true)) :=
  ⟨by decide, C9_at_most_one_role wdb_admin wuser_auth (by decide)⟩

/-- Claim C10: creating a user record through the standard save path fires
the post_save receivers, which insert a profile row with the default role
"member"; immediately afterwards the user has a profile (the not-found
branch is unreachable) and `is_member` is true. -/
theorem C10_fresh_user_gets_member_profile (db : Database) (u : DUser)
    (ha : u.isAuthenticated = true)
    (hfresh : ∀ p ∈ db.profiles, p.userId ≠ u.uid) :
    getUserProfile (create_user_record db u) u =
      Except.ok { userId := u.uid, role := "member" } ∧
    is_member (create_user_record db u) u = Except.ok true := by
  have hrow : ((db.profiles ++ [UserProfile.mk u.uid "member"]).any
      (fun p => p.userId == u.uid)) = true := by
    simp [List.any_append]
  have hrec : (create_user_record db u).profiles =
      db.profiles ++ [UserProfile.mk u.uid "member"] := by
    unfold create_user_record save_user_profile create_user_profile
    simp [hrow]
  have h1 : db.profiles.filter (fun p => p.userId == u.uid) = [] := by
    rw [List.filter_eq_nil_iff]
    intro a hamem
    simpa using hfresh a hamem
  have hfil : (create_user_record db u).profiles.filter (fun p => p.userId == u.uid) =
      [UserProfile.mk u.uid "member"] := by
    rw [hrec, List.filter_append, h1]
    simp
  have hget : getUserProfile (create_user_record db u) u =
      Except.ok { userId := u.uid, role := "member" } := by
    unfold getUserProfile
    rw [hfil]
  refine ⟨hget, ?_⟩
  unfold is_member
  rw [ha, hget]
  rfl

/-- Witness for C10: a fresh authenticated user over the empty store. -/
theorem C10_fresh_user_gets_member_profile_witness :
    wuser_auth.isAuthenticated = true ∧
    (∀ p ∈ wdb_empty.profiles, p.userId ≠ wuser_auth.uid) ∧
    (getUserProfile (create_user_record wdb_empty wuser_auth) wuser_auth =
       Except.ok { userId := wuser_auth.uid, role := "member" } ∧
     is_member (create_user_record wdb_empty wuser_auth) wuser_auth = Except.ok true) :=
  ⟨by decide, by decide,
   C10_fresh_user_gets_member_profile wdb_empty wuser_auth (by decide) (by decide)⟩
